import Mathlib

/-!
Shallow embedding of the credential-and-biometric authentication core of the
nova-bank repository: the session-persistence route decision
(useAuthPersistence.determineInitialRoute, two source variants), the
BiometricsService (secure-store backed key material and cached credentials,
sensor challenges), the AuthService (credential and biometric login, register,
logout) and the AuthContext state machine (authenticateWithCredentials,
authenticateWithBiometrics, registerUser, logout).

External collaborators (the biometric sensor, the random source used for key
generation and the Firebase identity backend) are modelled as oracles in an
environment record; the device secure store and the unstructured AsyncStorage
flags are explicit state threaded through every operation.  Sensor prompts and
backend calls are recorded in an event trace so that claims of the form "the
sensor challenge is never invoked" or "the stored-credential replay of login is
never reached" are statable.
-/

/-- Platform.OS values relevant to the source (react-native). -/
inductive PlatformOS where
  | ios
  | android
  | web
deriving DecidableEq

/-- The navigation routes returned by determineInitialRoute. -/
inductive Route where
  | Onboarding
  | Main
  | Auth
deriving DecidableEq

/-- AuthStatus values of the AuthContext state machine. -/
inductive AuthStatus where
  | idle
  | authenticating
  | authenticated
  | unauthenticated
  | error
deriving DecidableEq

/-- A user profile as returned by the Firebase backend. -/
structure User where
  id : String
  email : String
  name : String
deriving DecidableEq

/-- An identifier/secret pair, the CachedCredential payload.  The source stores
the JSON serialisation of this pair in SecureStore; JSON stringify/parse round
trips it, so the slot is modelled as holding the pair itself. -/
structure Cred where
  email : String
  password : String
deriving DecidableEq

/-- First source variant of useAuthPersistence.determineInitialRoute
(src/unnamed/part_008 lines 97-125): session, then previously-logged-in, then
onboarding, defaulting to Auth. -/
def determineInitialRoute (currentUser previouslyLoggedIn hasCompletedOnboarding : Bool) :
    Route :=
  if currentUser then Route.Main
  else if previouslyLoggedIn then Route.Auth
  else if !hasCompletedOnboarding then Route.Onboarding
  else Route.Auth

/-- Second source variant of useAuthPersistence.determineInitialRoute
(src/unnamed/part_008 lines 226-247): session, then onboarding, then
previously-logged-in, defaulting to Onboarding. -/
def determineInitialRouteSecond (currentUser previouslyLoggedIn hasCompletedOnboarding : Bool) :
    Route :=
  if currentUser then Route.Main
  else if !hasCompletedOnboarding then Route.Onboarding
  else if previouslyLoggedIn then Route.Auth
  else Route.Onboarding

/-- Modelled from the spec (section 4.3): the priority-ordered route policy.
The re-authentication screen and the plain login screen are both the Auth
route in the code's route type. -/
def specPriorityRoute (remoteSessionPresent onboardingCompleted wasPreviouslyLoggedIn : Bool) :
    Route :=
  if remoteSessionPresent then Route.Main
  else if wasPreviouslyLoggedIn then Route.Auth
  else if !onboardingCompleted then Route.Onboarding
  else Route.Auth

/-- Firebase error codes that FirebaseService.getErrorMessage classifies. -/
inductive FirebaseErrorCode where
  | emailAlreadyInUse
  | invalidEmail
  | weakPassword
  | userNotFound
  | wrongPassword
  | tooManyRequests
  | other
deriving DecidableEq

/-- FirebaseService.getErrorMessage: the closed backend-error classification. -/
def getErrorMessage : FirebaseErrorCode → String
  | FirebaseErrorCode.emailAlreadyInUse => "Email already registered"
  | FirebaseErrorCode.invalidEmail => "Invalid email address"
  | FirebaseErrorCode.weakPassword => "Password too weak"
  | FirebaseErrorCode.userNotFound => "Invalid email or password"
  | FirebaseErrorCode.wrongPassword => "Invalid email or password"
  | FirebaseErrorCode.tooManyRequests => "Too many attempts, try again later"
  | FirebaseErrorCode.other => "Authentication error"

/-- The messages getErrorMessage can produce (the closed classification). -/
def backendClassifiedMessages : List String :=
  ["Email already registered", "Invalid email address", "Password too weak",
   "Invalid email or password", "Too many attempts, try again later",
   "Authentication error"]

/-- Result of one LocalAuthentication.authenticateAsync sensor challenge, as
supplied by the sensor oracle. -/
structure AuthRes where
  success : Bool
  errorField : Option String
  warning : Option String
deriving DecidableEq

/-- The device capabilities the sensor collaborator reports: hardware
presence, OS-level biometric enrollment, whether the enrolled security level
is BIOMETRIC_STRONG or BIOMETRIC_WEAK, and the supported authentication
types. -/
structure Device where
  hasHardware : Bool
  isEnrolled : Bool
  hasBiometrics : Bool
  supportsFace : Bool
  supportsFingerprint : Bool
  supportsIris : Bool
  os : PlatformOS

/-- Outcome of FirebaseService.signInUser as decided by the backend:
a profile, a classified vendor error, or sign-in succeeding with no profile
document (signInUser then throws an Error without a code field). -/
inductive SignInOutcome where
  | ok (u : User)
  | err (c : FirebaseErrorCode)
  | noProfile
deriving DecidableEq

/-- Outcome of FirebaseService.registerUser as decided by the backend. -/
inductive RegisterOutcome where
  | ok (u : User)
  | err (c : FirebaseErrorCode)
deriving DecidableEq

/-- The external collaborators: the device sensor (with per-prompt outcomes),
the entropy source feeding createKeys, and the identity backend. -/
structure Env where
  device : Device
  sensor : Nat → AuthRes
  entropy : Nat → String
  signIn : String → String → SignInOutcome
  registerOutcome : String → String → String → RegisterOutcome

/-- Observable events of one engine operation: sensor prompts
(authenticateAsync invocations, with their prompt message and the
disableDeviceFallback flag) and backend calls. -/
inductive Event where
  | prompt (message : String) (disableDeviceFallback : Bool)
  | backendSignIn (email : String)
  | backendRegister (email : String)
  | backendSignOut
deriving DecidableEq

/-- The SecureStore slots the BiometricsService uses:
biometric_private_key, biometric_public_key, biometric_secured_credentials. -/
structure SecStore where
  privateKey : Option String
  publicKey : Option String
  credentials : Option Cred
deriving DecidableEq

/-- The AsyncStorage keys the core reads and writes (value "true" or absent
for the flags; the AuthService additionally caches id, email and a user_data
blob). -/
structure AStore where
  hasLaunchedBefore : Option String
  onboardingCompleted : Option String
  wasLoggedIn : Option String
  firebaseUserId : Option String
  firebaseEmail : Option String
  userData : Option String
deriving DecidableEq

/-- The mutable world threaded through every operation: the secure store, the
async storage, the backend-side stored biometric public key, the oracle
cursors, and the event trace. -/
structure St where
  sec : SecStore
  async : AStore
  backendPublicKey : Option String
  promptIdx : Nat
  entropyIdx : Nat
  events : List Event
deriving DecidableEq

/-- JS String.prototype.includes, used by the source on error and warning
messages. -/
def containsSub (s pat : String) : Bool :=
  (s.splitOn pat).length > 1

/-- Placeholder for Crypto.digestStringAsync SHA-256 (the source itself uses
the digest only as an opaque string). -/
def digestStringAsync (s : String) : String :=
  "sha256(" ++ s ++ ")"

/-- LocalAuthentication.authenticateAsync: consumes the next sensor-oracle
outcome and records the prompt in the trace. -/
def authenticateAsync (env : Env) (message : String) (disableDeviceFallback : Bool)
    (s : St) : AuthRes × St :=
  (env.sensor s.promptIdx,
   { s with
       promptIdx := s.promptIdx + 1,
       events := s.events ++ [Event.prompt message disableDeviceFallback] })

/-- Result of BiometricsService.isSensorAvailable. -/
structure Avail where
  available : Bool
  biometryType : Option String
deriving DecidableEq

namespace BiometricsService

/-- BiometricsService.isSensorAvailable (lines 19-147).  Hardware and
enrollment gate availability; the biometry type is derived from the supported
types with the iOS heuristics of the source, including the low-impact
type-identification prompt when the type cannot be determined on iOS.  The
catch branch (a collaborator throwing) is unreachable in this model, so the
optimistic iOS fallback of lines 133-140 does not appear. -/
def isSensorAvailable (env : Env) (s : St) : Avail × St :=
  if !env.device.hasHardware then
    ({ available := false, biometryType := none }, s)
  else if !env.device.isEnrolled then
    ({ available := false, biometryType := none }, s)
  else
    let hasBiometrics := env.device.hasBiometrics
    if env.device.os = PlatformOS.ios then
      if env.device.supportsFace then
        ({ available := true, biometryType := some "FaceID" }, s)
      else if env.device.supportsFingerprint then
        ({ available := true, biometryType := some "TouchID" }, s)
      else if hasBiometrics then
        let (r, s') := authenticateAsync env "Identifying biometric type" true s
        let bt :=
          if !r.success && (match r.errorField with
            | some e => e ≠ ""
            | none => false) then
            let errorMsg := (r.errorField.getD "").toLower
            if containsSub errorMsg "face" || containsSub errorMsg "faceid" then "FaceID"
            else if containsSub errorMsg "touch" || containsSub errorMsg "fingerprint" then
              "TouchID"
            else "FaceID"
          else "FaceID"
        ({ available := true, biometryType := some bt }, s')
      else
        ({ available := true, biometryType := none }, s)
    else
      if env.device.supportsFace then
        ({ available := true, biometryType := some "FaceID" }, s)
      else if env.device.supportsFingerprint then
        ({ available := true, biometryType := some "Fingerprint" }, s)
      else if env.device.supportsIris then
        ({ available := true, biometryType := some "Iris" }, s)
      else if hasBiometrics then
        ({ available := true, biometryType := some "Biometrics" }, s)
      else
        ({ available := true, biometryType := none }, s)

/-- BiometricsService.biometricKeysExist (lines 218-228): presence of the
stored public key. -/
def biometricKeysExist (s : St) : Bool :=
  s.sec.publicKey.isSome

/-- BiometricsService.createKeys (lines 234-258): derives a fresh private
digest from the entropy source, the public digest from it, stores both, and
returns the public key.  No existence check is performed before storing. -/
def createKeys (env : Env) (s : St) : Option String × St :=
  let privateKey := digestStringAsync (env.entropy s.entropyIdx)
  let publicKey := digestStringAsync (privateKey ++ "public")
  (some publicKey,
   { s with
       sec := { s.sec with privateKey := some privateKey, publicKey := some publicKey },
       entropyIdx := s.entropyIdx + 1 })

/-- BiometricsService.deleteKeys (lines 264-276). -/
def deleteKeys (s : St) : Bool × St :=
  (true, { s with sec := { s.sec with privateKey := none, publicKey := none } })

/-- Result of simplePrompt / storeCredentials. -/
structure SimpleRes where
  success : Bool
  errorField : Option String
deriving DecidableEq

/-- BiometricsService.simplePrompt (lines 282-315): one challenge with device
fallback enabled, with the source's mapping of raw sensor error codes to user
messages. -/
def simplePrompt (env : Env) (promptMessage : String) (s : St) : SimpleRes × St :=
  let (result, s') :=
    authenticateAsync env
      (if promptMessage = "" then "Authenticate to continue" else promptMessage) false s
  if !result.success then
    let errorMessage :=
      if result.errorField = some "user_cancel" then "Authentication was cancelled"
      else if result.errorField = some "lockout" then
        "Too many failed attempts. Try again later."
      else if result.errorField = some "lockout_permanent" then
        "Device is locked out from biometric authentication."
      else match result.errorField with
        | some e => if e ≠ "" then e else "Authentication failed"
        | none => "Authentication failed"
    ({ success := false, errorField := some errorMessage }, s')
  else
    ({ success := true, errorField := none }, s')

/-- BiometricsService.storeCredentials (lines 592-663): validates the inputs,
requires sensor availability, runs a challenge, creates key material when
absent, then writes the credential pair and verifies the write. -/
def storeCredentials (env : Env) (email password : String) (s : St) : SimpleRes × St :=
  if email = "" || password = "" then
    ({ success := false, errorField := some "Cannot store empty credentials" }, s)
  else
    let (avail, s₁) := isSensorAvailable env s
    if !avail.available then
      ({ success := false,
         errorField := some "Biometric authentication is not available on this device" }, s₁)
    else
      let (authResult, s₂) :=
        authenticateAsync env "Authenticate to secure your credentials" false s₁
      if !authResult.success then
        ({ success := false, errorField := some "Biometric authentication failed" }, s₂)
      else
        let keysExist := biometricKeysExist s₂
        let (keyOk, s₃) :=
          if !keysExist then
            let (publicKey, s₃) := createKeys env s₂
            (publicKey.isSome, s₃)
          else (true, s₂)
        if !keyOk then
          ({ success := false,
             errorField := some "Failed to set up biometric authentication" }, s₃)
        else
          let s₄ := { s₃ with sec := { s₃.sec with credentials := some ⟨email, password⟩ } }
          match s₄.sec.credentials with
          | none =>
              ({ success := false,
                 errorField := some "Failed to store credentials securely" }, s₄)
          | some _ => ({ success := true, errorField := none }, s₄)

/-- Result of getCredentials. -/
structure GetCredRes where
  success : Bool
  credentials : Option Cred
  errorField : Option String
deriving DecidableEq

/-- BiometricsService.getCredentials (lines 670-758): distinguishes the
never-enrolled and the data-lost absence cases, requires availability, gates
the read behind a simplePrompt challenge, and validates the stored pair. -/
def getCredentials (env : Env) (promptMessage : String) (s : St) : GetCredRes × St :=
  match s.sec.credentials with
  | none =>
      if biometricKeysExist s then
        ({ success := false, credentials := none,
           errorField := some
             "Biometric credentials data has been lost. Please login with email and password to restore." },
         s)
      else
        ({ success := false, credentials := none,
           errorField := some
             "No stored credentials found. Please login with email and password first" },
         s)
  | some cred =>
      let (avail, s₁) := isSensorAvailable env s
      if !avail.available then
        ({ success := false, credentials := none,
           errorField := some "Biometric authentication is not available" }, s₁)
      else
        let (result, s₂) := simplePrompt env promptMessage s₁
        if !result.success then
          ({ success := false, credentials := none,
             errorField := some (result.errorField.getD "Biometric authentication failed") },
           s₂)
        else
          if cred.email = "" || cred.password = "" then
            ({ success := false, credentials := none,
               errorField := some "Stored credentials are corrupted or incomplete" }, s₂)
          else
            ({ success := true, credentials := some cred, errorField := none }, s₂)

/-- BiometricsService.deleteCredentials (lines 764-773). -/
def deleteCredentials (s : St) : Bool × St :=
  (true, { s with sec := { s.sec with credentials := none } })

end BiometricsService

/-- The JS idiom `x || d` on an optional string: the default is taken when the
value is absent or the empty string. -/
def jsOr (o : Option String) (d : String) : String :=
  match o with
  | some e => if e = "" then d else e
  | none => d

namespace FirebaseService

/-- FirebaseService.signInUser: records the backend call and classifies any
vendor failure through getErrorMessage.  A missing profile document makes
signInUser throw an Error without a code field, which its catch maps to the
default classification. -/
def signInUser (env : Env) (email password : String) (s : St) :
    (Option User × Option String) × St :=
  let s₁ := { s with events := s.events ++ [Event.backendSignIn email] }
  match env.signIn email password with
  | SignInOutcome.ok u => ((some u, none), s₁)
  | SignInOutcome.err c => ((none, some (getErrorMessage c)), s₁)
  | SignInOutcome.noProfile =>
      ((none, some (getErrorMessage FirebaseErrorCode.other)), s₁)

/-- FirebaseService.registerUser: records the backend call; on success the
created profile is returned, on failure the classified message. -/
def registerUser (env : Env) (email password name : String) (s : St) :
    (Option User × Option String) × St :=
  let s₁ := { s with events := s.events ++ [Event.backendRegister email] }
  match env.registerOutcome email password name with
  | RegisterOutcome.ok u => ((some u, none), s₁)
  | RegisterOutcome.err c => ((none, some (getErrorMessage c)), s₁)

/-- FirebaseService.signOutUser. -/
def signOutUser (s : St) : St :=
  { s with events := s.events ++ [Event.backendSignOut] }

/-- FirebaseService.storePublicKey: the backend-side biometricPublicKey field
of the profile, modelled as a single slot. -/
def storePublicKey (publicKey : String) (s : St) : St :=
  { s with backendPublicKey := some publicKey }

/-- FirebaseService.getPublicKey. -/
def getPublicKey (s : St) : Option String :=
  s.backendPublicKey

end FirebaseService

namespace AuthService

/-- Result record of the AuthService entry points: the authenticated profile
or a user-facing error message. -/
structure LoginResult where
  user : Option User
  errorField : Option String
deriving DecidableEq

/-- AuthService.setupBiometricKeys (lines 123-163): create key material when
absent and push the public half to the backend; when key material exists but
the backend lost the public key, delete and recreate the pair. -/
def setupBiometricKeys (env : Env) (s : St) : St :=
  if !(BiometricsService.biometricKeysExist s) then
    let (publicKey, s₁) := BiometricsService.createKeys env s
    match publicKey with
    | some pk => FirebaseService.storePublicKey pk s₁
    | none => s₁
  else
    match FirebaseService.getPublicKey s with
    | some _ => s
    | none =>
        let (_, s₁) := BiometricsService.deleteKeys s
        let (publicKey, s₂) := BiometricsService.createKeys env s₁
        match publicKey with
        | some pk => FirebaseService.storePublicKey pk s₂
        | none => s₂

/-- AuthService.login (lines 66-117): validate, backend sign-in, cache the
profile in AsyncStorage, and when the sensor is available ensure key material
exists and store the credential pair for biometric login. -/
def login (env : Env) (email password : String) (s : St) : LoginResult × St :=
  if email = "" || password = "" then
    ({ user := none, errorField := some "Email and password are required" }, s)
  else
    let (signInRes, s₁) := FirebaseService.signInUser env email password s
    match signInRes.1 with
    | none =>
        ({ user := none, errorField := some (jsOr signInRes.2 "Login failed") }, s₁)
    | some u =>
        let s₂ :=
          { s₁ with
              async :=
                { s₁.async with
                    firebaseUserId := some u.id,
                    firebaseEmail := some u.email,
                    userData := some (u.id ++ "|" ++ u.email ++ "|" ++ u.name) } }
        let (avail, s₃) := BiometricsService.isSensorAvailable env s₂
        if avail.available then
          let s₄ := setupBiometricKeys env s₃
          let (_, s₅) := BiometricsService.storeCredentials env email password s₄
          ({ user := some u, errorField := none }, s₅)
        else
          ({ user := some u, errorField := none }, s₃)

/-- AuthService.register (lines 25-58): validate, backend account creation,
and when the sensor is available set up key material. -/
def register (env : Env) (email password name : String) (s : St) : LoginResult × St :=
  if email = "" || password = "" || name = "" then
    ({ user := none, errorField := some "All fields are required" }, s)
  else
    let (regRes, s₁) := FirebaseService.registerUser env email password name s
    match regRes.1 with
    | none =>
        ({ user := none, errorField := some (jsOr regRes.2 "Registration failed") }, s₁)
    | some u =>
        let (avail, s₂) := BiometricsService.isSensorAvailable env s₁
        if avail.available then
          ({ user := some u, errorField := none }, setupBiometricKeys env s₂)
        else
          ({ user := some u, errorField := none }, s₂)

/-- AuthService.loginWithBiometrics line 205 invokes
BiometricsService.getStoredCredentials, a method BiometricsService does not
define (its only retrieval operation is getCredentials with a prompt
message); in JS, invoking the undefined property throws a TypeError.  This
sentinel models the outcome of that call site. -/
def getStoredCredentialsCall : Except Unit Cred :=
  Except.error ()

/-- AuthService.loginWithBiometrics (lines 169-235): availability gate (iOS
proceeds despite a negative check), key-material gate, then the
credential-retrieval step.  That step invokes the undefined
getStoredCredentials, so control reaches the catch handler, which returns the
generic failure message; the replay of login with the stored pair (lines
207-227) is kept as the dead Except.ok branch. -/
def loginWithBiometrics (env : Env) (s : St) : LoginResult × St :=
  let (avail, s₁) := BiometricsService.isSensorAvailable env s
  if !avail.available && env.device.os ≠ PlatformOS.ios then
    ({ user := none,
       errorField := some "Biometric authentication is not available on this device" }, s₁)
  else
    if !(BiometricsService.biometricKeysExist s₁) then
      ({ user := none,
         errorField := some
           "Biometric authentication is not set up. Please login with email and password first." },
       s₁)
    else
      match getStoredCredentialsCall with
      | Except.error _ =>
          ({ user := none,
             errorField := some
               "Biometric authentication failed. Please try again or login with your password." },
           s₁)
      | Except.ok storedCredentials =>
          login env storedCredentials.email storedCredentials.password s₁

/-- AuthService.logout (lines 261-278): clear the cached AsyncStorage entries
(including wasLoggedIn) and sign out from the backend. -/
def logout (_env : Env) (s : St) : St :=
  let s₁ :=
    { s with
        async :=
          { s.async with
              firebaseUserId := none,
              firebaseEmail := none,
              userData := none,
              wasLoggedIn := none } }
  FirebaseService.signOutUser s₁

end AuthService

/-- The AuthContext provider state (AuthContext.tsx lines 40-52). -/
structure CtxState where
  user : Option User
  authStatus : AuthStatus
  isBiometricSupported : Bool
  biometricType : String
  isDataRevealed : Bool
  errorField : Option String
  isLoading : Bool
  showBiometricEnrollment : Bool
  pendingCredentials : Option Cred
deriving DecidableEq

namespace AuthContext

/-- AuthContext.promptBiometricEnrollment (lines 281-285). -/
def promptBiometricEnrollment (email password : String) (c : CtxState) : CtxState :=
  { c with
      pendingCredentials := some ⟨email, password⟩,
      showBiometricEnrollment := true }

/-- AuthContext.authenticateWithCredentials (lines 304-348): delegate to
AuthService.login; on success set the user and authenticated status, persist
wasLoggedIn, and raise the enrollment prompt when biometrics are supported
and no key material exists at that point; on failure set the classified error
and the unauthenticated status. -/
def authenticateWithCredentials (env : Env) (email password : String)
    (c : CtxState) (s : St) : Bool × CtxState × St :=
  let c₁ :=
    { c with isLoading := true, authStatus := AuthStatus.authenticating, errorField := none }
  let (res, s₁) := AuthService.login env email password s
  match res.user with
  | some u =>
      let c₂ := { c₁ with user := some u, authStatus := AuthStatus.authenticated }
      let s₂ := { s₁ with async := { s₁.async with wasLoggedIn := some "true" } }
      let c₃ := { c₂ with isLoading := false }
      if c₃.isBiometricSupported then
        if !(BiometricsService.biometricKeysExist s₂) then
          (true, promptBiometricEnrollment email password c₃, s₂)
        else (true, c₃, s₂)
      else (true, c₃, s₂)
  | none =>
      (false,
       { c₁ with
           errorField := some (jsOr res.errorField "Login failed"),
           authStatus := AuthStatus.unauthenticated,
           isLoading := false },
       s₁)

/-- AuthContext.authenticateWithBiometrics (lines 163-245): a direct sensor
challenge first (with passcode fallback), then AuthService.loginWithBiometrics
on challenge success; the result of that inner call decides the final status,
user and error.  On challenge failure the error is taken from the sensor
result, with the special FaceID-not-configured warning message. -/
def authenticateWithBiometrics (env : Env) (c : CtxState) (s : St) :
    Bool × CtxState × St :=
  let c₁ :=
    { c with isLoading := true, authStatus := AuthStatus.authenticating, errorField := none }
  let (authResult, s₁) := authenticateAsync env "Authenticate to continue" false s
  if authResult.success then
    let (res, s₂) := AuthService.loginWithBiometrics env s₁
    match res.user with
    | some u =>
        let c₂ :=
          { c₁ with
              user := some u, authStatus := AuthStatus.authenticated, isLoading := false }
        let s₃ := { s₂ with async := { s₂.async with wasLoggedIn := some "true" } }
        (true, c₂, s₃)
    | none =>
        (false,
         { c₁ with
             errorField := some (jsOr res.errorField "Authentication failed"),
             authStatus := AuthStatus.unauthenticated,
             isLoading := false },
         s₂)
  else
    let warnHit :=
      match authResult.warning with
      | some w => w ≠ "" && containsSub w "FaceID is available but has not been configured"
      | none => false
    let msg :=
      if warnHit then
        "FaceID is not available in Expo Go. Please build a development client or use passcode/TouchID."
      else jsOr authResult.errorField "Authentication failed"
    (false,
     { c₁ with
         errorField := some msg,
         authStatus := AuthStatus.unauthenticated,
         isLoading := false },
     s₁)

/-- AuthContext.registerUser (lines 350-376): delegate to
AuthService.register; on success set the user, set the authenticated status
and return true; on failure set the error and the unauthenticated status. -/
def registerUser (env : Env) (email password name : String) (c : CtxState) (s : St) :
    Bool × CtxState × St :=
  let c₁ :=
    { c with isLoading := true, authStatus := AuthStatus.authenticating, errorField := none }
  let (res, s₁) := AuthService.register env email password name s
  match res.user with
  | some u =>
      (true,
       { c₁ with
           user := some u, authStatus := AuthStatus.authenticated, isLoading := false },
       s₁)
  | none =>
      (false,
       { c₁ with
           errorField := some (jsOr res.errorField "Registration failed"),
           authStatus := AuthStatus.unauthenticated,
           isLoading := false },
       s₁)

/-- AuthContext.logout (lines 426-445): clearLoginStatus removes the
wasLoggedIn flag, AuthService.logout clears the cached entries and signs out,
then the local state is reset to unauthenticated. -/
def logout (env : Env) (c : CtxState) (s : St) : CtxState × St :=
  let c₁ := { c with isLoading := true }
  let s₁ := { s with async := { s.async with wasLoggedIn := none } }
  let s₂ := AuthService.logout env s₁
  ({ c₁ with user := none, authStatus := AuthStatus.unauthenticated, isLoading := false },
   s₂)

end AuthContext

/-- The backendSignIn events in a trace (used to state that the
stored-credential replay of login is never reached). -/
def countSignIn (es : List Event) : Nat :=
  (es.filter fun e =>
    match e with
    | Event.backendSignIn _ => true
    | _ => false).length

/-- A device with an enrolled fingerprint sensor on Android. -/
def devAndroid : Device :=
  { hasHardware := true, isEnrolled := true, hasBiometrics := true,
    supportsFace := false, supportsFingerprint := true, supportsIris := false,
    os := PlatformOS.android }

/-- A device with no biometric hardware. -/
def devNoHardware : Device :=
  { hasHardware := false, isEnrolled := false, hasBiometrics := false,
    supportsFace := false, supportsFingerprint := false, supportsIris := false,
    os := PlatformOS.android }

/-- A sensor whose every challenge succeeds. -/
def sensorOk : Nat → AuthRes :=
  fun _ => { success := true, errorField := none, warning := none }

/-- A sensor whose every challenge is cancelled by the user. -/
def sensorCancel : Nat → AuthRes :=
  fun _ => { success := false, errorField := some "user_cancel", warning := none }

/-- The registered demo profile. -/
def uAna : User :=
  { id := "u1", email := "a@b.com", name := "Ana" }

/-- A backend that accepts exactly the demo credentials. -/
def signInAna : String → String → SignInOutcome :=
  fun email password =>
    if email = "a@b.com" && password = "pw123456" then SignInOutcome.ok uAna
    else SignInOutcome.err FirebaseErrorCode.wrongPassword

/-- A backend that creates an account from the given fields. -/
def registerAny : String → String → String → RegisterOutcome :=
  fun email _ name => RegisterOutcome.ok { id := "u1", email := email, name := name }

/-- Environment: Android fingerprint device, all challenges succeed, demo
backend. -/
def envOk : Env :=
  { device := devAndroid, sensor := sensorOk,
    entropy := fun n => "seed" ++ toString n,
    signIn := signInAna, registerOutcome := registerAny }

/-- Environment: same as envOk but every sensor challenge is cancelled. -/
def envCancel : Env :=
  { envOk with sensor := sensorCancel }

/-- Environment: no biometric hardware. -/
def envNoHardware : Env :=
  { envOk with device := devNoHardware }

/-- Empty secure store. -/
def sec0 : SecStore :=
  { privateKey := none, publicKey := none, credentials := none }

/-- Fresh-install world: empty stores, no backend key, trace empty. -/
def st0 : St :=
  { sec := sec0,
    async :=
      { hasLaunchedBefore := none, onboardingCompleted := none, wasLoggedIn := none,
        firebaseUserId := none, firebaseEmail := none, userData := none },
    backendPublicKey := none, promptIdx := 0, entropyIdx := 0, events := [] }

/-- World in which biometric key material exists but no cached credential. -/
def stWithKeys : St :=
  { st0 with
      sec := { privateKey := some "oldpriv", publicKey := some "oldpub", credentials := none },
      backendPublicKey := some "oldpub" }

/-- World with key material and a cached credential for the demo profile. -/
def stEnrolled : St :=
  { stWithKeys with
      sec := { stWithKeys.sec with credentials := some ⟨"a@b.com", "pw123456"⟩ } }

/-- Initial provider state. -/
def ctx0 : CtxState :=
  { user := none, authStatus := AuthStatus.idle, isBiometricSupported := false,
    biometricType := "", isDataRevealed := false, errorField := none,
    isLoading := false, showBiometricEnrollment := false, pendingCredentials := none }

/-- Provider state after the session listener reported no session. -/
def ctxUnauth : CtxState :=
  { ctx0 with authStatus := AuthStatus.unauthenticated }

/-- Unauthenticated provider state with biometric support detected. -/
def ctxUnauthBio : CtxState :=
  { ctxUnauth with isBiometricSupported := true }

/-- Provider state of an authenticated session for the demo profile. -/
def ctxAuth : CtxState :=
  { ctx0 with authStatus := AuthStatus.authenticated, user := some uAna }

/-! Frame and outcome lemmas about the embedded operations, shared by the
claim theorems below. -/

theorem isSensorAvailable_available (env : Env) (s : St) :
    (BiometricsService.isSensorAvailable env s).1.available =
      (env.device.hasHardware && env.device.isEnrolled) := by
  rcases env with ⟨⟨hh, en, hb, f, fp, ir, os⟩, sen, ent, si, ro⟩
  cases hh <;> cases en <;> cases os <;> cases f <;> cases fp <;> cases ir <;> cases hb <;>
    simp [BiometricsService.isSensorAvailable, authenticateAsync]

theorem isSensorAvailable_sec (env : Env) (s : St) :
    (BiometricsService.isSensorAvailable env s).2.sec = s.sec := by
  rcases env with ⟨⟨hh, en, hb, f, fp, ir, os⟩, sen, ent, si, ro⟩
  cases hh <;> cases en <;> cases os <;> cases f <;> cases fp <;> cases ir <;> cases hb <;>
    simp [BiometricsService.isSensorAvailable, authenticateAsync]

theorem isSensorAvailable_async (env : Env) (s : St) :
    (BiometricsService.isSensorAvailable env s).2.async = s.async := by
  rcases env with ⟨⟨hh, en, hb, f, fp, ir, os⟩, sen, ent, si, ro⟩
  cases hh <;> cases en <;> cases os <;> cases f <;> cases fp <;> cases ir <;> cases hb <;>
    simp [BiometricsService.isSensorAvailable, authenticateAsync]

theorem isSensorAvailable_backendPublicKey (env : Env) (s : St) :
    (BiometricsService.isSensorAvailable env s).2.backendPublicKey = s.backendPublicKey := by
  rcases env with ⟨⟨hh, en, hb, f, fp, ir, os⟩, sen, ent, si, ro⟩
  cases hh <;> cases en <;> cases os <;> cases f <;> cases fp <;> cases ir <;> cases hb <;>
    simp [BiometricsService.isSensorAvailable, authenticateAsync]

theorem isSensorAvailable_events (env : Env) (s : St) :
    (BiometricsService.isSensorAvailable env s).2.events = s.events ∨
    (BiometricsService.isSensorAvailable env s).2.events =
      s.events ++ [Event.prompt "Identifying biometric type" true] := by
  rcases env with ⟨⟨hh, en, hb, f, fp, ir, os⟩, sen, ent, si, ro⟩
  cases hh <;> cases en <;> cases os <;> cases f <;> cases fp <;> cases ir <;> cases hb <;>
    simp [BiometricsService.isSensorAvailable, authenticateAsync]

theorem register_fst_ok (env : Env) (email password name : String) (s : St) (u : User)
    (hE : email ≠ "") (hP : password ≠ "") (hN : name ≠ "")
    (hr : env.registerOutcome email password name = RegisterOutcome.ok u) :
    (AuthService.register env email password name s).1 =
      { user := some u, errorField := none } := by
  unfold AuthService.register FirebaseService.registerUser
  simp only [hr, hE, hP, hN]
  split
  · simp_all
  · split <;> rfl

/-- C1.  The claim states that determineInitialRoute applies the priority
order session, then previously-logged-in, then onboarding, with a fixed-order
early return, for every combination of the three inputs.  The first source
variant does; the second source variant checks onboarding-completion before
previously-logged-in and defaults to Onboarding, so the claim fails on it
(see the counterexample).  This theorem settles the amended claim: the first
variant implements the priority policy exactly on all eight input
combinations. -/
theorem determineInitialRoute_first_variant_implements_priority_policy :
    ∀ currentUser previouslyLoggedIn hasCompletedOnboarding : Bool,
      determineInitialRoute currentUser previouslyLoggedIn hasCompletedOnboarding =
        specPriorityRoute currentUser hasCompletedOnboarding previouslyLoggedIn := by
  decide

/-- C1 counterexample.  With no remote session, onboarding not completed and
the user previously logged in, the priority policy requires the
re-authentication route (Auth), but the second source variant returns
Onboarding: the previously-logged-in check does not take priority there. -/
theorem determineInitialRoute_second_variant_breaks_priority_policy :
    determineInitialRouteSecond false true false = Route.Onboarding ∧
    specPriorityRoute false false true = Route.Auth ∧
    determineInitialRouteSecond false true false ≠ specPriorityRoute false false true := by
  decide

/-- C4 counterexample.  The claim states that a successful
register(identifier, secret, displayName) leaves status at its pre-call
value.  From the unauthenticated state, a successful registration through
AuthContext.registerUser returns true and sets status to authenticated, not
to the pre-call value. -/
theorem registerUser_sets_authenticated_status :
    ctxUnauth.authStatus = AuthStatus.unauthenticated ∧
    (AuthContext.registerUser envOk "a@b.com" "pw123456" "Ana" ctxUnauth st0).1 = true ∧
    (AuthContext.registerUser envOk "a@b.com" "pw123456" "Ana" ctxUnauth st0).2.1.user =
      some { id := "u1", email := "a@b.com", name := "Ana" } ∧
    (AuthContext.registerUser envOk "a@b.com" "pw123456" "Ana" ctxUnauth st0).2.1.authStatus =
      AuthStatus.authenticated := by
  decide

/-- C4 amended.  For every register call with non-empty fields that the
backend accepts, the engine sets user to the created profile, returns true,
and transitions status to authenticated (passing through authenticating at
call start) — rather than leaving status at its pre-call value. -/
theorem registerUser_success_outcome :
    ∀ (env : Env) (email password name : String) (c : CtxState) (s : St) (u : User),
      email ≠ "" → password ≠ "" → name ≠ "" →
      env.registerOutcome email password name = RegisterOutcome.ok u →
      (AuthContext.registerUser env email password name c s).1 = true ∧
      (AuthContext.registerUser env email password name c s).2.1.user = some u ∧
      (AuthContext.registerUser env email password name c s).2.1.authStatus =
        AuthStatus.authenticated := by
  intro env email password name c s u hE hP hN hr
  have h1 := register_fst_ok env email password name s u hE hP hN hr
  unfold AuthContext.registerUser
  rcases h2 : AuthService.register env email password name s with ⟨res, s₁⟩
  rw [h2] at h1
  replace h1 : res = { user := some u, errorField := none } := h1
  subst h1
  simp

/-- C4 witness: the amended register theorem evaluated on the demo input. -/
theorem registerUser_success_outcome_check :
    (AuthContext.registerUser envOk "a@b.com" "pw123456" "Ana" ctxUnauth st0).1 = true ∧
    (AuthContext.registerUser envOk "a@b.com" "pw123456" "Ana" ctxUnauth st0).2.1.user =
      some uAna ∧
    (AuthContext.registerUser envOk "a@b.com" "pw123456" "Ana" ctxUnauth st0).2.1.authStatus =
      AuthStatus.authenticated :=
  registerUser_success_outcome envOk "a@b.com" "pw123456" "Ana" ctxUnauth st0 uAna
    (by decide) (by decide) (by decide) (by decide)

theorem getErrorMessage_ne_empty (code : FirebaseErrorCode) : getErrorMessage code ≠ "" := by
  cases code <;> decide

theorem getErrorMessage_mem (code : FirebaseErrorCode) :
    getErrorMessage code ∈ backendClassifiedMessages := by
  cases code <;> decide

theorem login_fst_ok (env : Env) (email password : String) (s : St) (u : User)
    (hE : email ≠ "") (hP : password ≠ "")
    (h : env.signIn email password = SignInOutcome.ok u) :
    (AuthService.login env email password s).1 = { user := some u, errorField := none } := by
  unfold AuthService.login FirebaseService.signInUser
  simp only [h, hE, hP]
  split
  · simp_all
  · split <;> rfl

theorem login_fst_err (env : Env) (email password : String) (s : St)
    (code : FirebaseErrorCode)
    (hE : email ≠ "") (hP : password ≠ "")
    (h : env.signIn email password = SignInOutcome.err code) :
    (AuthService.login env email password s).1 =
      { user := none, errorField := some (getErrorMessage code) } := by
  unfold AuthService.login FirebaseService.signInUser
  simp only [h, hE, hP]
  split
  · simp_all
  · simp [jsOr, getErrorMessage_ne_empty code]

theorem login_fst_noProfile (env : Env) (email password : String) (s : St)
    (hE : email ≠ "") (hP : password ≠ "")
    (h : env.signIn email password = SignInOutcome.noProfile) :
    (AuthService.login env email password s).1 =
      { user := none, errorField := some "Authentication error" } := by
  unfold AuthService.login FirebaseService.signInUser
  simp only [h, hE, hP]
  split
  · simp_all
  · simp [jsOr, getErrorMessage]

theorem signInUser_sec (env : Env) (email password : String) (s : St) :
    ((FirebaseService.signInUser env email password s).2).sec = s.sec := by
  unfold FirebaseService.signInUser
  cases h : env.signIn email password <;> simp [h]

theorem login_sec_unavail (env : Env) (email password : String) (s : St)
    (h : (env.device.hasHardware && env.device.isEnrolled) = false) :
    ((AuthService.login env email password s).2).sec = s.sec := by
  unfold AuthService.login
  split
  · rfl
  split
  next pr s₁ heq =>
    have hsec1 : s₁.sec = s.sec := by
      have h2 := signInUser_sec env email password s
      rw [heq] at h2
      exact h2
    split
    · exact hsec1
    · dsimp only
      rw [isSensorAvailable_available, h]
      simp only [Bool.false_eq_true, if_false]
      rw [isSensorAvailable_sec]
      exact hsec1

theorem setup_pub (env : Env) (s : St) :
    (AuthService.setupBiometricKeys env s).sec.publicKey.isSome = true := by
  unfold AuthService.setupBiometricKeys BiometricsService.createKeys
    BiometricsService.deleteKeys BiometricsService.biometricKeysExist
    FirebaseService.storePublicKey FirebaseService.getPublicKey
  cases hpk : s.sec.publicKey <;> cases hbk : s.backendPublicKey <;> simp [hpk, hbk]

theorem store_pub_keep (env : Env) (e p : String) (t : St)
    (h : t.sec.publicKey.isSome = true) :
    ((BiometricsService.storeCredentials env e p t).2).sec.publicKey = t.sec.publicKey := by
  unfold BiometricsService.storeCredentials
  split
  · rfl
  split
  next a s₁ heq =>
    have hsec : s₁.sec = t.sec := by
      have h2 := isSensorAvailable_sec env t
      rw [heq] at h2
      exact h2
    split
    · simp [hsec]
    split
    next r s₂ heq2 =>
      have hsec2 : s₂.sec = s₁.sec := by
        have h3 : (authenticateAsync env "Authenticate to secure your credentials"
            false s₁).2.sec = s₁.sec := rfl
        rw [heq2] at h3
        exact h3
      have hk : BiometricsService.biometricKeysExist s₂ = true := by
        unfold BiometricsService.biometricKeysExist
        rw [hsec2, hsec, h]
      split
      · simp [hsec2, hsec]
      · simp [hk, hsec2, hsec]

theorem login_keys_avail (env : Env) (email password : String) (s : St) (u : User)
    (hE : email ≠ "") (hP : password ≠ "")
    (hok : env.signIn email password = SignInOutcome.ok u)
    (hwen : (env.device.hasHardware && env.device.isEnrolled) = true) :
    ((AuthService.login env email password s).2).sec.publicKey.isSome = true := by
  unfold AuthService.login
  split
  · simp_all
  split
  next pr s₁ heq =>
    have hpr : pr.1 = some u := by
      have h2 : (FirebaseService.signInUser env email password s).1.1 = some u := by
        unfold FirebaseService.signInUser
        simp [hok]
      rw [heq] at h2
      exact h2
    split
    next heq3 =>
      rw [heq3] at hpr
      exact absurd hpr (by simp)
    next u' heq3 =>
      dsimp only
      rw [isSensorAvailable_available, hwen]
      simp only [if_true]
      rw [store_pub_keep env email password _ (setup_pub env _)]
      exact setup_pub env _

theorem awc_ok_shape (env : Env) (email password : String) (c : CtxState) (s : St) (u : User)
    (hE : email ≠ "") (hP : password ≠ "")
    (hok : env.signIn email password = SignInOutcome.ok u)
    (hsh : c.showBiometricEnrollment = false) :
    (AuthContext.authenticateWithCredentials env email password c s).2.2.sec =
      ((AuthService.login env email password s).2).sec ∧
    (AuthContext.authenticateWithCredentials env email password c s).2.1.showBiometricEnrollment =
      (c.isBiometricSupported &&
        !(((AuthService.login env email password s).2).sec.publicKey.isSome)) ∧
    ((AuthContext.authenticateWithCredentials env email password c s).2.1.showBiometricEnrollment =
        true →
      (AuthContext.authenticateWithCredentials env email password c s).2.1.pendingCredentials =
        some ⟨email, password⟩) := by
  have h1 := login_fst_ok env email password s u hE hP hok
  unfold AuthContext.authenticateWithCredentials
  rcases h2 : AuthService.login env email password s with ⟨res, s₁⟩
  rw [h2] at h1
  replace h1 : res = { user := some u, errorField := none } := h1
  subst h1
  refine ⟨?_, ?_, ?_⟩
  · dsimp only
    repeat' split
    all_goals rfl
  · dsimp only [AuthContext.promptBiometricEnrollment]
    repeat' split
    all_goals simp_all [BiometricsService.biometricKeysExist, Option.isSome_iff_ne_none]
  · dsimp only [AuthContext.promptBiometricEnrollment]
    repeat' split
    all_goals simp_all

theorem storeCredentials_success (env : Env) (e p : String) (s : St)
    (hE : e ≠ "") (hP : p ≠ "")
    (hw : env.device.hasHardware = true) (hen : env.device.isEnrolled = true)
    (hsen : ∀ n, (env.sensor n).success = true) :
    (BiometricsService.storeCredentials env e p s).1.success = true ∧
    (BiometricsService.storeCredentials env e p s).2.sec.credentials = some ⟨e, p⟩ ∧
    (BiometricsService.storeCredentials env e p s).2.sec.publicKey.isSome = true := by
  unfold BiometricsService.storeCredentials
  split
  · simp_all
  split
  next a s₁ heq =>
    have hava : a.available = true := by
      have h2 := isSensorAvailable_available env s
      rw [heq] at h2
      simp only at h2
      simp [hw, hen] at h2
      exact h2
    split
    · simp_all
    split
    next r s₂ heq2 =>
      have hr : r.success = true := by
        have h3 : (authenticateAsync env "Authenticate to secure your credentials"
            false s₁).1 = env.sensor s₁.promptIdx := rfl
        rw [heq2] at h3
        have h4 : r = env.sensor s₁.promptIdx := h3
        rw [h4]
        exact hsen s₁.promptIdx
      split
      · simp_all
      · dsimp only
        split
        · simp [BiometricsService.createKeys]
        · simp_all [BiometricsService.biometricKeysExist, Option.isSome_iff_ne_none]

theorem login_creds_avail (env : Env) (email password : String) (s : St) (u : User)
    (hE : email ≠ "") (hP : password ≠ "")
    (hok : env.signIn email password = SignInOutcome.ok u)
    (hwen : (env.device.hasHardware && env.device.isEnrolled) = true)
    (hsen : ∀ n, (env.sensor n).success = true) :
    ((AuthService.login env email password s).2).sec.credentials = some ⟨email, password⟩ := by
  obtain ⟨hw, hen⟩ := (Bool.and_eq_true _ _).mp hwen
  unfold AuthService.login
  split
  · simp_all
  split
  next pr s₁ heq =>
    have hpr : pr.1 = some u := by
      have h2 : (FirebaseService.signInUser env email password s).1.1 = some u := by
        unfold FirebaseService.signInUser
        simp [hok]
      rw [heq] at h2
      exact h2
    split
    next heq3 =>
      rw [heq3] at hpr
      exact absurd hpr (by simp)
    next u' heq3 =>
      dsimp only
      rw [isSensorAvailable_available, hwen]
      simp only [if_true]
      exact (storeCredentials_success env email password _ hE hP hw hen hsen).2.1

theorem getCredentials_success (env : Env) (msg : String) (s : St) (cr : Cred)
    (hcr : s.sec.credentials = some cr)
    (hw : env.device.hasHardware = true) (hen : env.device.isEnrolled = true)
    (hsen : ∀ n, (env.sensor n).success = true)
    (hce : cr.email ≠ "") (hcp : cr.password ≠ "") :
    (BiometricsService.getCredentials env msg s).1.success = true ∧
    (BiometricsService.getCredentials env msg s).1.credentials = some cr := by
  unfold BiometricsService.getCredentials
  rw [hcr]
  dsimp only
  have hava : (BiometricsService.isSensorAvailable env s).1.available = true := by
    rw [isSensorAvailable_available]
    simp [hw, hen]
  have hr : (BiometricsService.simplePrompt env msg
      (BiometricsService.isSensorAvailable env s).2).1.success = true := by
    unfold BiometricsService.simplePrompt authenticateAsync
    simp [hsen]
  simp [hava, hr, hce, hcp]

/-- C7.  A logout from the authenticated state clears the persisted
wasLoggedIn flag, invokes the backend sign-out (the trace gains exactly the
sign-out event), clears the user and sets status to unauthenticated, while
the SecretStore (biometric key material and cached credential) is left
entirely unchanged. -/
theorem logout_clears_session_keeps_biometrics :
    ∀ (env : Env) (c : CtxState) (s : St),
      c.authStatus = AuthStatus.authenticated →
      (AuthContext.logout env c s).1.user = none ∧
      (AuthContext.logout env c s).1.authStatus = AuthStatus.unauthenticated ∧
      (AuthContext.logout env c s).2.async.wasLoggedIn = none ∧
      (AuthContext.logout env c s).2.sec = s.sec ∧
      (AuthContext.logout env c s).2.events = s.events ++ [Event.backendSignOut] := by
  intro env c s h
  exact ⟨rfl, rfl, rfl, rfl, rfl⟩

/-- C7 witness: logout evaluated from an authenticated session on the
enrolled world. -/
theorem logout_clears_session_keeps_biometrics_check :
    (AuthContext.logout envOk ctxAuth stEnrolled).1.user = none ∧
    (AuthContext.logout envOk ctxAuth stEnrolled).1.authStatus = AuthStatus.unauthenticated ∧
    (AuthContext.logout envOk ctxAuth stEnrolled).2.async.wasLoggedIn = none ∧
    (AuthContext.logout envOk ctxAuth stEnrolled).2.sec = stEnrolled.sec ∧
    (AuthContext.logout envOk ctxAuth stEnrolled).2.events =
      stEnrolled.events ++ [Event.backendSignOut] :=
  logout_clears_session_keeps_biometrics envOk ctxAuth stEnrolled rfl

/-- C8.  getCredentials distinguishes its three failure modes with distinct
errors: no credential and no key material yields the never-enrolled message;
no credential with key material present yields the distinct data-lost
message; a stored credential with a failing sensor challenge yields the
challenge-failure error produced by the prompt. -/
theorem getCredentials_failure_modes :
    ∀ (env : Env) (msg : String) (s : St),
      (s.sec.credentials = none → s.sec.publicKey = none →
        (BiometricsService.getCredentials env msg s).1.errorField =
          some "No stored credentials found. Please login with email and password first") ∧
      (s.sec.credentials = none → s.sec.publicKey.isSome = true →
        (BiometricsService.getCredentials env msg s).1.errorField =
          some "Biometric credentials data has been lost. Please login with email and password to restore.") ∧
      (∀ cr, s.sec.credentials = some cr →
        (BiometricsService.isSensorAvailable env s).1.available = true →
        (BiometricsService.simplePrompt env msg
          (BiometricsService.isSensorAvailable env s).2).1.success = false →
        (BiometricsService.getCredentials env msg s).1.errorField =
          some ((BiometricsService.simplePrompt env msg
            (BiometricsService.isSensorAvailable env s).2).1.errorField.getD
              "Biometric authentication failed")) := by
  intro env msg s
  refine ⟨?_, ?_, ?_⟩
  · intro h1 h2
    simp [BiometricsService.getCredentials, BiometricsService.biometricKeysExist, h1, h2]
  · intro h1 h2
    simp [BiometricsService.getCredentials, BiometricsService.biometricKeysExist, h1, h2]
  · intro cr hcr hav hfail
    unfold BiometricsService.getCredentials
    rw [hcr]
    rcases hA : BiometricsService.isSensorAvailable env s with ⟨a, s₁⟩
    rw [hA] at hav hfail
    simp only at hav hfail
    rcases hP : BiometricsService.simplePrompt env msg s₁ with ⟨r, s₂⟩
    rw [hP] at hfail
    simp only at hfail
    simp [hav, hP, hfail]

/-- C8 witness: the three failure modes evaluated on concrete worlds — fresh
install, key material without credential, and enrolled with a cancelled
challenge. -/
theorem getCredentials_failure_modes_check :
    ((BiometricsService.getCredentials envOk "p" st0).1.errorField =
      some "No stored credentials found. Please login with email and password first") ∧
    ((BiometricsService.getCredentials envOk "p" stWithKeys).1.errorField =
      some "Biometric credentials data has been lost. Please login with email and password to restore.") ∧
    ((BiometricsService.getCredentials envCancel "p" stEnrolled).1.errorField =
      some ((BiometricsService.simplePrompt envCancel "p"
        (BiometricsService.isSensorAvailable envCancel stEnrolled).2).1.errorField.getD
          "Biometric authentication failed")) :=
  ⟨(getCredentials_failure_modes envOk "p" st0).1 rfl rfl,
   (getCredentials_failure_modes envOk "p" stWithKeys).2.1 rfl (by decide),
   (getCredentials_failure_modes envCancel "p" stEnrolled).2.2 ⟨"a@b.com", "pw123456"⟩
     rfl (by decide) (by decide)⟩

/-- C2 counterexample.  The claim states that a biometric-login call made
when no BiometricKeyMaterial exists fails with the not-enrolled error and
never invokes the sensor challenge.  AuthContext.authenticateWithBiometrics
runs the sensor challenge first, before any key-material check: with an empty
secure store, the call fails with the not-enrolled message but the trace
shows the challenge prompt was invoked. -/
theorem authenticateWithBiometrics_invokes_sensor_without_enrollment :
    st0.sec.publicKey = none ∧
    (AuthContext.authenticateWithBiometrics envOk ctxUnauth st0).1 = false ∧
    (AuthContext.authenticateWithBiometrics envOk ctxUnauth st0).2.1.errorField =
      some "Biometric authentication is not set up. Please login with email and password first." ∧
    (AuthContext.authenticateWithBiometrics envOk ctxUnauth st0).2.2.events =
      [Event.prompt "Authenticate to continue" false] := by
  decide

/-- C2 amended.  AuthService.loginWithBiometrics called when no
BiometricKeyMaterial exists never runs a sensor challenge of its own — the
only possible sensor interaction is the iOS biometric-type identification
probe inside the availability check — and fails fast: with the distinct
not-enrolled error when the availability check passes or the platform is iOS
(which proceeds regardless), and with the availability error on a non-iOS
device failing the availability check.  The context-level
authenticateWithBiometrics, however, always runs the sensor challenge before
any key-material check (see the counterexample), and the
key-exists-but-credential-missing case never produces the distinct data-lost
error at this level (see C3). -/
theorem loginWithBiometrics_missing_key_fails_fast :
    ∀ (env : Env) (s : St),
      s.sec.publicKey = none →
      ((((BiometricsService.isSensorAvailable env s).1.available = true ∨
          env.device.os = PlatformOS.ios) →
        (AuthService.loginWithBiometrics env s).1 =
          { user := none,
            errorField := some
              "Biometric authentication is not set up. Please login with email and password first." } ∧
        ((AuthService.loginWithBiometrics env s).2.events = s.events ∨
         (AuthService.loginWithBiometrics env s).2.events =
           s.events ++ [Event.prompt "Identifying biometric type" true])) ∧
      (((BiometricsService.isSensorAvailable env s).1.available = false ∧
          env.device.os ≠ PlatformOS.ios) →
        (AuthService.loginWithBiometrics env s).1 =
          { user := none,
            errorField := some "Biometric authentication is not available on this device" } ∧
        ((AuthService.loginWithBiometrics env s).2.events = s.events ∨
         (AuthService.loginWithBiometrics env s).2.events =
           s.events ++ [Event.prompt "Identifying biometric type" true]))) := by
  intro env s hk
  have hsec := isSensorAvailable_sec env s
  have hev := isSensorAvailable_events env s
  unfold AuthService.loginWithBiometrics
  rcases hA : BiometricsService.isSensorAvailable env s with ⟨a, s₁⟩
  rw [hA] at hsec hev
  simp only at hsec hev
  have hkeys : BiometricsService.biometricKeysExist s₁ = false := by
    unfold BiometricsService.biometricKeysExist
    rw [hsec, hk]
    rfl
  constructor
  · intro hgate
    rcases hgate with hav | hios
    · simp only at hav
      simp [hav, hkeys]
      exact hev
    · simp [hios, hkeys]
      exact hev
  · intro hcase
    obtain ⟨hav, hios⟩ := hcase
    simp only at hav
    simp [hav, hios]
    exact hev

/-- C2 witness: the fail-fast theorem evaluated on the fresh-install world,
once with the available Android sensor (not-enrolled error) and once with no
biometric hardware (availability error). -/
theorem loginWithBiometrics_missing_key_fails_fast_check :
    ((AuthService.loginWithBiometrics envOk st0).1 =
      { user := none,
        errorField := some
          "Biometric authentication is not set up. Please login with email and password first." } ∧
     ((AuthService.loginWithBiometrics envOk st0).2.events = st0.events ∨
      (AuthService.loginWithBiometrics envOk st0).2.events =
        st0.events ++ [Event.prompt "Identifying biometric type" true])) ∧
    ((AuthService.loginWithBiometrics envNoHardware st0).1 =
      { user := none,
        errorField := some "Biometric authentication is not available on this device" } ∧
     ((AuthService.loginWithBiometrics envNoHardware st0).2.events = st0.events ∨
      (AuthService.loginWithBiometrics envNoHardware st0).2.events =
        st0.events ++ [Event.prompt "Identifying biometric type" true])) :=
  ⟨(loginWithBiometrics_missing_key_fails_fast envOk st0 rfl).1 (Or.inl (by decide)),
   (loginWithBiometrics_missing_key_fails_fast envNoHardware st0 rfl).2
     ⟨by decide, by decide⟩⟩

/-- C3.  When the availability gate passes (or the platform is iOS) and key
material exists, AuthService.loginWithBiometrics reaches the
credential-retrieval step, which invokes BiometricsService.getStoredCredentials
— a method BiometricsService does not define; the thrown TypeError is caught
at the operation boundary, so the call returns user none with the generic
failure message, and the stored-credential replay of login is never reached
(no backend sign-in event is added to the trace). -/
theorem loginWithBiometrics_generic_failure_when_enrolled :
    ∀ (env : Env) (s : St),
      s.sec.publicKey.isSome = true →
      ((BiometricsService.isSensorAvailable env s).1.available = true ∨
        env.device.os = PlatformOS.ios) →
      (AuthService.loginWithBiometrics env s).1 =
        { user := none,
          errorField := some
            "Biometric authentication failed. Please try again or login with your password." } ∧
      countSignIn (AuthService.loginWithBiometrics env s).2.events = countSignIn s.events := by
  intro env s hk hgate
  have hsec := isSensorAvailable_sec env s
  have hev := isSensorAvailable_events env s
  unfold AuthService.loginWithBiometrics
  rcases hA : BiometricsService.isSensorAvailable env s with ⟨a, s₁⟩
  rw [hA] at hsec hev
  simp only at hsec hev
  have hkeys : BiometricsService.biometricKeysExist s₁ = true := by
    unfold BiometricsService.biometricKeysExist
    rw [hsec, hk]
  have hcount : countSignIn s₁.events = countSignIn s.events := by
    rcases hev with h | h <;> simp [h, countSignIn]
  rcases hgate with hav | hios
  · rw [hA] at hav
    simp only at hav
    simp [hav, hkeys, AuthService.getStoredCredentialsCall]
    exact hcount
  · simp [hios, hkeys, AuthService.getStoredCredentialsCall]
    exact hcount

/-- C3 witness: the generic-failure theorem evaluated on the world holding
key material but no cached credential. -/
theorem loginWithBiometrics_generic_failure_when_enrolled_check :
    (AuthService.loginWithBiometrics envOk stWithKeys).1 =
      { user := none,
        errorField := some
          "Biometric authentication failed. Please try again or login with your password." } ∧
    countSignIn (AuthService.loginWithBiometrics envOk stWithKeys).2.events =
      countSignIn stWithKeys.events :=
  loginWithBiometrics_generic_failure_when_enrolled envOk stWithKeys (by decide)
    (Or.inl (by decide))

/-- C10 counterexample.  The claim states that invoking createKeys when key
material already exists does not silently overwrite it.  At a state holding
key material, createKeys replaces the stored public key with a freshly
generated one without any prior deleteKeys. -/
theorem createKeys_overwrites_existing_keys :
    stWithKeys.sec.publicKey = some "oldpub" ∧
    (BiometricsService.createKeys envOk stWithKeys).2.sec.publicKey =
      some "sha256(sha256(seed0)public)" ∧
    (BiometricsService.createKeys envOk stWithKeys).2.sec.publicKey ≠ some "oldpub" := by
  decide

/-- C10 amended.  createKeys unconditionally generates and stores a fresh key
pair, overwriting any existing key material; it performs no existence check
and requires no prior deleteKeys. -/
theorem createKeys_unconditional_overwrite :
    ∀ (env : Env) (s : St),
      (BiometricsService.createKeys env s).2.sec.privateKey =
        some (digestStringAsync (env.entropy s.entropyIdx)) ∧
      (BiometricsService.createKeys env s).2.sec.publicKey =
        some (digestStringAsync (digestStringAsync (env.entropy s.entropyIdx) ++ "public")) ∧
      (BiometricsService.createKeys env s).1 =
        some (digestStringAsync (digestStringAsync (env.entropy s.entropyIdx) ++ "public")) := by
  intro env s
  exact ⟨rfl, rfl, rfl⟩

/-- C5.  For every loginWithCredentials call with non-empty inputs: on
backend sign-in success, the call returns true, status becomes authenticated,
user is set, and the persisted wasLoggedIn flag is set; on classified backend
failure, the call returns false, status becomes unauthenticated, and the
error is the classified message, which belongs to the closed backend
classification; on the missing-profile failure the default classification
message is used.  The operation is a total function of the state (it never
throws past its boundary: every collaborator failure is handled by a
branch). -/
theorem authenticateWithCredentials_outcomes :
    ∀ (env : Env) (email password : String) (c : CtxState) (s : St),
      email ≠ "" → password ≠ "" →
      (∀ u, env.signIn email password = SignInOutcome.ok u →
        (AuthContext.authenticateWithCredentials env email password c s).1 = true ∧
        (AuthContext.authenticateWithCredentials env email password c s).2.1.authStatus =
          AuthStatus.authenticated ∧
        (AuthContext.authenticateWithCredentials env email password c s).2.1.user = some u ∧
        (AuthContext.authenticateWithCredentials env email password
          c s).2.2.async.wasLoggedIn = some "true") ∧
      (∀ code, env.signIn email password = SignInOutcome.err code →
        (AuthContext.authenticateWithCredentials env email password c s).1 = false ∧
        (AuthContext.authenticateWithCredentials env email password c s).2.1.authStatus =
          AuthStatus.unauthenticated ∧
        (AuthContext.authenticateWithCredentials env email password c s).2.1.errorField =
          some (getErrorMessage code) ∧
        getErrorMessage code ∈ backendClassifiedMessages) ∧
      (env.signIn email password = SignInOutcome.noProfile →
        (AuthContext.authenticateWithCredentials env email password c s).1 = false ∧
        (AuthContext.authenticateWithCredentials env email password c s).2.1.authStatus =
          AuthStatus.unauthenticated ∧
        (AuthContext.authenticateWithCredentials env email password c s).2.1.errorField =
          some "Authentication error" ∧
        "Authentication error" ∈ backendClassifiedMessages) := by
  intro env email password c s hE hP
  refine ⟨?_, ?_, ?_⟩
  · intro u h
    have h1 := login_fst_ok env email password s u hE hP h
    unfold AuthContext.authenticateWithCredentials
    rcases h2 : AuthService.login env email password s with ⟨res, s₁⟩
    rw [h2] at h1
    replace h1 : res = { user := some u, errorField := none } := h1
    subst h1
    refine ⟨?_, ?_, ?_, ?_⟩
    all_goals simp only [AuthContext.promptBiometricEnrollment]
    all_goals repeat' split
    all_goals simp_all
  · intro code h
    have h1 := login_fst_err env email password s code hE hP h
    unfold AuthContext.authenticateWithCredentials
    rcases h2 : AuthService.login env email password s with ⟨res, s₁⟩
    rw [h2] at h1
    replace h1 : res = { user := none, errorField := some (getErrorMessage code) } := h1
    subst h1
    simp [jsOr, getErrorMessage_ne_empty code, getErrorMessage_mem code]
  · intro h
    have h1 := login_fst_noProfile env email password s hE hP h
    unfold AuthContext.authenticateWithCredentials
    rcases h2 : AuthService.login env email password s with ⟨res, s₁⟩
    rw [h2] at h1
    replace h1 : res = { user := none, errorField := some "Authentication error" } := h1
    subst h1
    simp [jsOr, backendClassifiedMessages]

/-- C5 witness: the outcome theorem evaluated on a successful and on a
rejected demo login. -/
theorem authenticateWithCredentials_outcomes_check :
    ((AuthContext.authenticateWithCredentials envOk "a@b.com" "pw123456" ctxUnauth st0).1 =
      true ∧
     (AuthContext.authenticateWithCredentials envOk "a@b.com" "pw123456" ctxUnauth
        st0).2.1.authStatus = AuthStatus.authenticated ∧
     (AuthContext.authenticateWithCredentials envOk "a@b.com" "pw123456" ctxUnauth
        st0).2.1.user = some uAna ∧
     (AuthContext.authenticateWithCredentials envOk "a@b.com" "pw123456" ctxUnauth
        st0).2.2.async.wasLoggedIn = some "true") ∧
    ((AuthContext.authenticateWithCredentials envOk "a@b.com" "bad" ctxUnauth st0).1 = false ∧
     (AuthContext.authenticateWithCredentials envOk "a@b.com" "bad" ctxUnauth
        st0).2.1.authStatus = AuthStatus.unauthenticated ∧
     (AuthContext.authenticateWithCredentials envOk "a@b.com" "bad" ctxUnauth
        st0).2.1.errorField = some (getErrorMessage FirebaseErrorCode.wrongPassword) ∧
     getErrorMessage FirebaseErrorCode.wrongPassword ∈ backendClassifiedMessages) :=
  ⟨(authenticateWithCredentials_outcomes envOk "a@b.com" "pw123456" ctxUnauth st0
      (by decide) (by decide)).1 uAna (by decide),
   (authenticateWithCredentials_outcomes envOk "a@b.com" "bad" ctxUnauth st0
      (by decide) (by decide)).2.1 FirebaseErrorCode.wrongPassword (by decide)⟩

/-- C6 counterexample.  The claim states that after a successful login the
enrollment prompt is raised exactly when biometrics are supported and no key
material exists yet, and that no CachedCredential is written to SecretStore
during the login itself.  With a supported sensor and an empty store, the
login succeeds, yet the prompt is NOT raised (AuthService.login already
created the key material), and the CachedCredential IS written to SecretStore
during the login itself (AuthService.login calls
BiometricsService.storeCredentials). -/
theorem login_writes_credentials_and_skips_prompt :
    ctxUnauthBio.isBiometricSupported = true ∧
    st0.sec.publicKey = none ∧
    (AuthContext.authenticateWithCredentials envOk "a@b.com" "pw123456" ctxUnauthBio st0).1 =
      true ∧
    (AuthContext.authenticateWithCredentials envOk "a@b.com" "pw123456" ctxUnauthBio
      st0).2.1.showBiometricEnrollment = false ∧
    (AuthContext.authenticateWithCredentials envOk "a@b.com" "pw123456" ctxUnauthBio
      st0).2.2.sec.credentials = some ⟨"a@b.com", "pw123456"⟩ := by
  decide

/-- C6 amended.  After a successful credential login with the prompt
initially down: the enrollment prompt is raised if and only if the
context-level biometric-supported flag holds and key material still does not
exist after the login; when the prompt is raised, the SecretStore is
unchanged and the credential is held only in memory (pendingCredentials);
when the service-level availability check fails, the login writes nothing to
SecretStore; and when the availability check passes and every sensor
challenge succeeds, the login itself ensures key material exists and writes
the CachedCredential to SecretStore, and the prompt is not raised. -/
theorem enrollment_prompt_behavior :
    ∀ (env : Env) (email password : String) (c : CtxState) (s : St) (u : User),
      email ≠ "" → password ≠ "" →
      env.signIn email password = SignInOutcome.ok u →
      c.showBiometricEnrollment = false →
      ((AuthContext.authenticateWithCredentials env email password
          c s).2.1.showBiometricEnrollment =
        (c.isBiometricSupported &&
          !((AuthContext.authenticateWithCredentials env email password
              c s).2.2.sec.publicKey.isSome))) ∧
      ((AuthContext.authenticateWithCredentials env email password
          c s).2.1.showBiometricEnrollment = true →
        (AuthContext.authenticateWithCredentials env email password c s).2.2.sec = s.sec ∧
        (AuthContext.authenticateWithCredentials env email password
          c s).2.1.pendingCredentials = some ⟨email, password⟩) ∧
      ((env.device.hasHardware && env.device.isEnrolled) = false →
        (AuthContext.authenticateWithCredentials env email password c s).2.2.sec = s.sec) ∧
      ((env.device.hasHardware && env.device.isEnrolled) = true →
        (∀ n, (env.sensor n).success = true) →
        (AuthContext.authenticateWithCredentials env email password
          c s).2.1.showBiometricEnrollment = false ∧
        (AuthContext.authenticateWithCredentials env email password
          c s).2.2.sec.publicKey.isSome = true ∧
        (AuthContext.authenticateWithCredentials env email password
          c s).2.2.sec.credentials = some ⟨email, password⟩) := by
  intro env email password c s u hE hP hok hsh
  obtain ⟨hsec, hshow, hpend⟩ := awc_ok_shape env email password c s u hE hP hok hsh
  refine ⟨?_, ?_, ?_, ?_⟩
  · rw [hshow, hsec]
  · intro hpr
    refine ⟨?_, hpend hpr⟩
    rw [hshow] at hpr
    simp only [Bool.and_eq_true, Bool.not_eq_true'] at hpr
    by_cases hwen : (env.device.hasHardware && env.device.isEnrolled) = true
    · exact absurd (login_keys_avail env email password s u hE hP hok hwen)
        (by simp [hpr.2])
    · rw [hsec]
      exact login_sec_unavail env email password s (by simpa using hwen)
  · intro hwen
    rw [hsec]
    exact login_sec_unavail env email password s hwen
  · intro hwen hsen
    have hkeys := login_keys_avail env email password s u hE hP hok hwen
    refine ⟨?_, ?_, ?_⟩
    · rw [hshow]
      simp [hkeys]
    · rw [hsec]
      exact hkeys
    · rw [hsec]
      exact login_creds_avail env email password s u hE hP hok hwen hsen

/-- C6 witness: the prompt theorem evaluated on a device without biometric
hardware (the prompt comes up and the store stays untouched) and on the
available Android device with succeeding challenges (no prompt, key material
and credential written during the login). -/
theorem enrollment_prompt_behavior_check :
    ((AuthContext.authenticateWithCredentials envNoHardware "a@b.com" "pw123456" ctxUnauthBio
        st0).2.1.showBiometricEnrollment =
      (ctxUnauthBio.isBiometricSupported &&
        !((AuthContext.authenticateWithCredentials envNoHardware "a@b.com" "pw123456"
            ctxUnauthBio st0).2.2.sec.publicKey.isSome))) ∧
    ((AuthContext.authenticateWithCredentials envNoHardware "a@b.com" "pw123456" ctxUnauthBio
        st0).2.2.sec = st0.sec ∧
     (AuthContext.authenticateWithCredentials envNoHardware "a@b.com" "pw123456" ctxUnauthBio
        st0).2.1.pendingCredentials = some ⟨"a@b.com", "pw123456"⟩) ∧
    ((AuthContext.authenticateWithCredentials envOk "a@b.com" "pw123456" ctxUnauthBio
        st0).2.1.showBiometricEnrollment = false ∧
     (AuthContext.authenticateWithCredentials envOk "a@b.com" "pw123456" ctxUnauthBio
        st0).2.2.sec.publicKey.isSome = true ∧
     (AuthContext.authenticateWithCredentials envOk "a@b.com" "pw123456" ctxUnauthBio
        st0).2.2.sec.credentials = some ⟨"a@b.com", "pw123456"⟩) :=
  ⟨(enrollment_prompt_behavior envNoHardware "a@b.com" "pw123456" ctxUnauthBio st0 uAna
      (by decide) (by decide) (by decide) (by decide)).1,
   (enrollment_prompt_behavior envNoHardware "a@b.com" "pw123456" ctxUnauthBio st0 uAna
      (by decide) (by decide) (by decide) (by decide)).2.1 (by decide),
   (enrollment_prompt_behavior envOk "a@b.com" "pw123456" ctxUnauthBio st0 uAna
      (by decide) (by decide) (by decide) (by decide)).2.2.2 (by decide) (fun _ => rfl)⟩

/-- C9.  For every non-empty identifier/secret pair, on a device whose
sensor is present, enrolled and accepting every challenge, storeCredentials
succeeds (creating key material when needed), keyExists is true afterwards,
and a subsequent getCredentials with the successful sensor challenge returns
exactly the enrolled pair (store-then-retrieve round trip). -/
theorem store_then_get_roundtrip :
    ∀ (env : Env) (email password msg : String) (s : St),
      email ≠ "" → password ≠ "" →
      env.device.hasHardware = true → env.device.isEnrolled = true →
      (∀ n, (env.sensor n).success = true) →
      (BiometricsService.storeCredentials env email password s).1.success = true ∧
      BiometricsService.biometricKeysExist
        (BiometricsService.storeCredentials env email password s).2 = true ∧
      (BiometricsService.getCredentials env msg
        (BiometricsService.storeCredentials env email password s).2).1.success = true ∧
      (BiometricsService.getCredentials env msg
        (BiometricsService.storeCredentials env email password s).2).1.credentials =
        some ⟨email, password⟩ := by
  intro env email password msg s hE hP hw hen hsen
  obtain ⟨h1, h2, h3⟩ := storeCredentials_success env email password s hE hP hw hen hsen
  obtain ⟨g1, g2⟩ := getCredentials_success env msg
    (BiometricsService.storeCredentials env email password s).2 ⟨email, password⟩
    h2 hw hen hsen hE hP
  refine ⟨h1, ?_, g1, g2⟩
  unfold BiometricsService.biometricKeysExist
  exact h3

/-- C9 witness: the round trip evaluated on a concrete enrollment from the
fresh-install world. -/
theorem store_then_get_roundtrip_check :
    (BiometricsService.storeCredentials envOk "x@y.com" "secret1" st0).1.success = true ∧
    BiometricsService.biometricKeysExist
      (BiometricsService.storeCredentials envOk "x@y.com" "secret1" st0).2 = true ∧
    (BiometricsService.getCredentials envOk "p"
      (BiometricsService.storeCredentials envOk "x@y.com" "secret1" st0).2).1.success = true ∧
    (BiometricsService.getCredentials envOk "p"
      (BiometricsService.storeCredentials envOk "x@y.com" "secret1" st0).2).1.credentials =
      some ⟨"x@y.com", "secret1"⟩ :=
  store_then_get_roundtrip envOk "x@y.com" "secret1" "p" st0 (by decide) (by decide)
    (by decide) (by decide) (fun _ => rfl)
